import Mathlib

/-!
Verification of the persona-driven response/sentiment pipeline of the meshAI
backend.  The Python source is shallowly embedded: floats are modelled as
exact rationals, Python dicts as association lists with insertion-order
update semantics, the external LLM collaborator as an explicit function
parameter (returning none / an error when the underlying call raises), and
impure presentation-only fields (uuids, timestamps) are omitted from the
records.  Python string operations used by the pipeline are modelled on the
underlying character lists.
-/

/-- Models Python list slicing xs[-n:]: the last n entries (all of them when
fewer than n exist), in order. -/
def lastN (n : Nat) (l : List α) : List α := l.drop (l.length - n)

/-- Bool test that one character list is a prefix of another. -/
def startsWithChars : List Char → List Char → Bool
  | [], _ => true
  | _ :: _, [] => false
  | a :: as, b :: bs => a == b && startsWithChars as bs

/-- Bool test that needle occurs as a contiguous run inside the haystack. -/
def hasSubChars (needle : List Char) : List Char → Bool
  | [] => needle.isEmpty
  | c :: rest => startsWithChars needle (c :: rest) || hasSubChars needle rest

/-- Models the Python membership test `needle in haystack` on strings. -/
def strContains (haystack needle : String) : Bool :=
  hasSubChars needle.data haystack.data

/-- Models Python str.lower() (the keyword lists are ASCII, where the two
agree). -/
def lowerStr (s : String) : String := ⟨s.data.map Char.toLower⟩

/-- Models Python str.strip(): drop leading and trailing whitespace. -/
def stripPy (s : String) : String :=
  ⟨((s.data.dropWhile Char.isWhitespace).reverse.dropWhile Char.isWhitespace).reverse⟩

/-- Models Python str.replace(a, b) for a single-character pattern, the only
form the source uses (hyphen/underscore normalization). -/
def replaceChar (a b : Char) (s : String) : String :=
  ⟨s.data.map (fun c => if c = a then b else c)⟩

/-- Models Python sep.join(parts). -/
def joinSep (sep : String) : List String → String
  | [] => ""
  | [s] => s
  | s :: rest => s ++ sep ++ joinSep sep rest

/-! ## Sentiment policies -/

/-- The fixed positive keyword list of crew_manager._analyze_sentiment. -/
def positive_words : List String :=
  ["great", "excellent", "amazing", "wonderful", "fantastic", "love",
   "brilliant", "outstanding", "perfect", "impressive", "innovative",
   "exciting", "valuable", "effective", "successful"]

/-- The fixed negative keyword list of crew_manager._analyze_sentiment. -/
def negative_words : List String :=
  ["terrible", "awful", "horrible", "hate", "disgusting", "worst",
   "disappointing", "useless", "failed", "broken", "concerning",
   "problematic", "challenging", "difficult", "expensive"]

/-- Models `sum(1 for word in words if word in text_lower)`: the number of
words of the list that occur in the (already lowercased) text. -/
def keywordCount (words : List String) (textLower : String) : Nat :=
  (words.filter (fun w => strContains textLower w)).length

/-- crew_manager.CrewManager._analyze_sentiment: keyword-count sentiment
policy, returning a label and an integer score.  The persona record is not
an input at all: no bias is applied. -/
def analyzeSentiment (text : String) : String × Int :=
  let textLower := lowerStr text
  let positive_count := keywordCount positive_words textLower
  let negative_count := keywordCount negative_words textLower
  if positive_count > negative_count then
    ("positive", min 5 ((positive_count : Int) - (negative_count : Int)))
  else if negative_count > positive_count then
    ("negative", max (-5) (-((negative_count : Int) - (positive_count : Int))))
  else
    ("neutral", 0)

/-- The bias threshold chain shared by the api/conversations.py handlers
(simple interaction, group discussion, focus group): positive above 0.2,
negative below -0.2, neutral otherwise.  The float thresholds are modelled
as the exact rationals mkRat 1 5 = 0.2 and its negation. -/
def pureBiasSentiment (bias : Rat) : String × Int :=
  if bias > mkRat 1 5 then ("positive", 1)
  else if bias < -(mkRat 1 5) then ("negative", -1)
  else ("neutral", 0)

/-- The full per-turn sentiment block of api/conversations.py: sentiment
defaults to neutral/0 and the bias thresholds run only under the Python
truthiness guard `if response:` (that is, only when the text is non-empty). -/
def determineSentiment (response : String) (bias : Rat) : String × Int :=
  if response = "" then ("neutral", 0) else pureBiasSentiment bias

/-! ## Persona prompt building (agents/persona_agent.py) -/

/-- PersonaAgent._format_personality_traits, one numeric trait: the rendered
descriptor, or none when the value falls in the gap between the tiers. -/
def traitDescriptor (trait : String) (value : Rat) : Option String :=
  if value > mkRat 7 10 then some ("very " ++ trait)
  else if value > mkRat 2 5 then some ("moderately " ++ trait)
  else if value < mkRat 3 10 then some ("not very " ++ trait)
  else none

/-- PersonaAgent._format_personality_traits over a whole numeric trait map. -/
def formatPersonalityTraits (traits : List (String × Rat)) : String :=
  joinSep ", " (traits.filterMap (fun p => traitDescriptor p.1 p.2))

/-- PersonaAgent._build_behavioral_context, sentiment-bias sentence. -/
def biasSentence (bias : Rat) : Option String :=
  if bias > mkRat 3 10 then some "You tend to be optimistic and positive in your responses."
  else if bias < -(mkRat 3 10) then some "You tend to be more critical and skeptical in your responses."
  else none

/-- PersonaAgent._build_behavioral_context, engagement-level sentence. -/
def engagementSentence (engagement : Rat) : Option String :=
  if engagement > mkRat 7 10 then some "You are highly engaged and enthusiastic in discussions."
  else if engagement < mkRat 3 10 then some "You are more reserved and measured in your participation."
  else none

/-- PersonaAgent._build_behavioral_context, controversy-tolerance sentence. -/
def controversySentence (tolerance : Rat) : Option String :=
  if tolerance > mkRat 7 10 then some "You\x27re comfortable with controversial topics and debates."
  else if tolerance < mkRat 3 10 then some "You prefer to avoid controversial topics when possible."
  else none

/-- PersonaAgent._build_behavioral_context: the three optional sentences,
joined with single spaces. -/
def buildBehavioralContext (bias engagement tolerance : Rat) : String :=
  joinSep " " (([biasSentence bias, engagementSentence engagement,
    controversySentence tolerance]).filterMap id)

/-! ## Data model -/

/-- The persona fields the conversation handlers read (models.persona.Persona,
restricted to the fields the pipeline consumes). -/
structure Persona where
  id : String
  name : String
  avatar : String
  sentiment_bias : Rat
  engagement_level : Rat
  controversy_tolerance : Rat
deriving DecidableEq, Repr

/-- A transcript message as built by the discussion loops (uuid and timestamp,
which are impure and presentation-only, are omitted). -/
structure Msg where
  persona_id : String
  persona_name : String
  avatar : String
  content : String
  sentiment : String
  sentiment_score : Int
  round : Nat
deriving DecidableEq, Repr

/-- A reaction record as built by the simple-interaction and initial-reaction
loops. -/
structure SReaction where
  persona_id : String
  name : String
  avatar : String
  reaction : String
  sentiment : String
  sentiment_score : Int
deriving DecidableEq, Repr

/-- A sentiment interval snapshot recorded after a focus-group round
(timestamp omitted). -/
structure SentInterval where
  round : Nat
  overall_sentiment : Rat
  persona_sentiments : List (String × Int)
deriving DecidableEq, Repr

/-- The final_summary record of the focus-group handler (the templated
key_insights and fixed recommendations strings are presentation-only and
omitted). -/
structure FinalSummary where
  overall_sentiment : Rat
  sentiment_shift : Rat
deriving DecidableEq, Repr

/-- The focus-group session result assembled by api/conversations.py. -/
structure FGResult where
  initial_reactions : List SReaction
  discussion_messages : List Msg
  sentiment_intervals : List SentInterval
  final_summary : FinalSummary
deriving DecidableEq, Repr

/-! ## Python dict with string keys (insertion-ordered) -/

/-- Bool key-membership test on an association list. -/
def hasKey (d : List (String × Int)) (k : String) : Bool :=
  d.any (fun kv => kv.1 == k)

/-- Models `d[k] = v` on a Python dict: overwrite in place when the key
exists, append otherwise. -/
def dictInsert (d : List (String × Int)) (k : String) (v : Int) :
    List (String × Int) :=
  if hasKey d k then d.map (fun kv => if kv.1 == k then (k, v) else kv)
  else d ++ [(k, v)]

/-! ## api/conversations.py focus_group_simulation -/

/-- The per-round discussion context of the focus-group handler: campaign,
optional goals, the last 6 transcript entries (no per-persona exclusion), and
the round instruction. -/
def fgBuildContext (camp : String) (goals : List String) (dms : List Msg)
    (roundNum : Nat) : String :=
  let c1 := "Campaign: " ++ camp ++ "\n\n"
  let c2 := if goals.isEmpty then c1
    else c1 ++ "Goals: " ++ joinSep ", " goals ++ "\n\n"
  let c3 := if dms.isEmpty then c2
    else c2 ++ "Previous discussion:\n" ++
      String.join ((lastN 6 dms).map (fun m => m.persona_name ++ ": " ++ m.content ++ "\n"))
  c3 ++ "\nRound " ++ toString (roundNum + 1) ++
    ": Please share your thoughts and respond to others\x27 comments."

/-- One persona turn of a focus-group discussion round.  The generator
abstracts agent.process_message (agent internals plus the LLM call); none
models the call raising, in which case the literal fallback message is
synthesized with neutral sentiment. -/
def fgProcessPersona (gen : String → String → Option String) (camp : String)
    (goals : List String) (dms : List Msg) (roundNum : Nat) (p : Persona) : Msg :=
  match gen p.id (fgBuildContext camp goals dms roundNum) with
  | some response =>
    let ssc := determineSentiment response p.sentiment_bias
    ⟨p.id, p.name, p.avatar, response, ssc.1, ssc.2, roundNum + 1⟩
  | none =>
    ⟨p.id, p.name, p.avatar,
      "I\x27m still processing the information from this round.",
      "neutral", 0, roundNum + 1⟩

/-- The inner per-persona loop of one focus-group round, accumulating
round_messages and the persona_sentiments dict in loop order.  The context is
built from dms, the transcript before this round, because the handler extends
discussion_messages only after the round finishes. -/
def fgRoundAux (gen : String → String → Option String) (camp : String)
    (goals : List String) (dms : List Msg) (roundNum : Nat) :
    List Persona → List Msg × List (String × Int) → List Msg × List (String × Int)
  | [], acc => acc
  | p :: rest, acc =>
    let m := fgProcessPersona gen camp goals dms roundNum p
    fgRoundAux gen camp goals dms roundNum rest
      (acc.1 ++ [m], dictInsert acc.2 p.id m.sentiment_score)

/-- One focus-group round, started from empty round_messages and an empty
persona_sentiments dict. -/
def fgRound (gen : String → String → Option String) (camp : String)
    (goals : List String) (dms : List Msg) (roundNum : Nat)
    (personas : List Persona) : List Msg × List (String × Int) :=
  fgRoundAux gen camp goals dms roundNum personas ([], [])

/-- The overall sentiment recorded for a round: the mean of the dict values,
guarded to 0 when the dict is empty. -/
def roundOverall (d : List (String × Int)) : Rat :=
  if d.isEmpty then 0 else ((d.map Prod.snd).sum : Int) / (d.length : Rat)

/-- The focus-group round loop (`for round_num in range(3)` in the source,
modelled with the round count as a parameter): each iteration appends the
round block to discussion_messages and one interval snapshot. -/
def fgPhase2Aux (gen : String → String → Option String) (camp : String)
    (goals : List String) (personas : List Persona) :
    Nat → Nat → List Msg × List SentInterval → List Msg × List SentInterval
  | 0, _, acc => acc
  | k + 1, roundNum, acc =>
    let pr := fgRound gen camp goals acc.1 roundNum personas
    fgPhase2Aux gen camp goals personas k (roundNum + 1)
      (acc.1 ++ pr.1, acc.2 ++ [⟨roundNum + 1, roundOverall pr.2, pr.2⟩])

/-- Phase 2 of the focus-group handler: n discussion rounds (n = 3 in the
source). -/
def fgPhase2 (gen : String → String → Option String) (camp : String)
    (goals : List String) (personas : List Persona) (n : Nat) :
    List Msg × List SentInterval :=
  fgPhase2Aux gen camp goals personas n 0 ([], [])

/-- The phase-1 prompt of the focus-group handler. -/
def fgInitialPrompt (camp : String) (goals : List String) : String :=
  "Campaign: " ++ camp ++ "\n\nGoals: " ++
    (if goals.isEmpty then "General feedback" else joinSep ", " goals) ++
    "\n\nWhat is your initial reaction to this campaign?"

/-- One phase-1 initial reaction, with the literal fallback on generator
failure. -/
def fgInitialReaction (gen : String → String → Option String) (camp : String)
    (goals : List String) (p : Persona) : SReaction :=
  match gen p.id (fgInitialPrompt camp goals) with
  | some response =>
    let ssc := determineSentiment response p.sentiment_bias
    ⟨p.id, p.name, p.avatar, response, ssc.1, ssc.2⟩
  | none =>
    ⟨p.id, p.name, p.avatar,
      "I\x27d like to learn more about this campaign before sharing my thoughts.",
      "neutral", 0⟩

/-- The guarded mean of initial-reaction scores (`if initial_reactions else 0`
in the source). -/
def meanReactionScores (rs : List SReaction) : Rat :=
  if rs.isEmpty then 0
  else ((rs.map SReaction.sentiment_score).sum : Int) / (rs.length : Rat)

/-- api/conversations.py focus_group_simulation after validation and persona
resolution: initial reactions, n discussion rounds, interval snapshots, and
the final summary metrics (overall sentiment over all scores, and
sentiment_shift = last interval overall sentiment minus the initial-reaction
mean, each guard defaulting to 0 on the empty case). -/
def fgSimulation (gen : String → String → Option String) (camp : String)
    (goals : List String) (personas : List Persona) (n : Nat) : FGResult :=
  let initial := personas.map (fgInitialReaction gen camp goals)
  let pr := fgPhase2 gen camp goals personas n
  let allScores := initial.map SReaction.sentiment_score ++ pr.1.map Msg.sentiment_score
  let overall : Rat :=
    if allScores.isEmpty then 0 else (allScores.sum : Int) / (allScores.length : Rat)
  let initialS := meanReactionScores initial
  let finalS : Rat :=
    match pr.2.getLast? with
    | some iv => iv.overall_sentiment
    | none => 0
  ⟨initial, pr.1, pr.2, ⟨overall, finalS - initialS⟩⟩

/-- The mean of the sentiment scores of a message list, 0 when empty (the
quantity the spec calls the arithmetic mean of the per-persona sentiment
scores of a round). -/
def meanScores (ms : List Msg) : Rat :=
  if ms.isEmpty then 0
  else ((ms.map Msg.sentiment_score).sum : Int) / (ms.length : Rat)

/-! ## api/conversations.py group_discussion -/

/-- The rolling window of the simple group-discussion handler: the last 3
transcript entries, with no per-persona exclusion. -/
def gdWindow (dms : List Msg) : List Msg := lastN 3 dms

/-- The per-turn context of the group-discussion handler: the question and,
when any previous messages exist, the last 3 of them rendered as
name: content lines.  The context does not depend on which persona is about
to act. -/
def gdBuildContext (question : String) (dms : List Msg) : String :=
  let base := "Question: " ++ question ++ "\n\n"
  if dms.isEmpty then base
  else base ++ "Previous discussion:\n" ++
    String.join ((gdWindow dms).map (fun m => m.persona_name ++ ": " ++ m.content ++ "\n"))

/-- One persona turn of the group-discussion loop, with the literal fallback
message on generator failure. -/
def gdProcess (gen : String → String → Option String) (question : String)
    (dms : List Msg) (roundNum : Nat) (p : Persona) : Msg :=
  match gen p.id (gdBuildContext question dms) with
  | some response =>
    let ssc := determineSentiment response p.sentiment_bias
    ⟨p.id, p.name, p.avatar, response, ssc.1, ssc.2, roundNum + 1⟩
  | none =>
    ⟨p.id, p.name, p.avatar,
      "I need more time to consider this aspect of the question.",
      "neutral", 0, roundNum + 1⟩

/-- One group-discussion round.  Unlike the focus-group handler, messages are
appended to discussion_messages inside the per-persona loop, so later
personas of the same round see the earlier same-round messages. -/
def gdRound (gen : String → String → Option String) (question : String)
    (roundNum : Nat) : List Persona → List Msg → List Msg
  | [], dms => dms
  | p :: rest, dms =>
    gdRound gen question roundNum rest (dms ++ [gdProcess gen question dms roundNum p])

/-- The group-discussion loop of api/conversations.py: two rounds over the
resolved personas (`for round_num in range(2)`). -/
def gdDiscussion (gen : String → String → Option String) (question : String)
    (personas : List Persona) : List Msg :=
  gdRound gen question 1 personas (gdRound gen question 0 personas [])

/-! ## api/conversations.py simple_interaction -/

/-- One simple-interaction reaction, with the literal fallback on generator
failure. -/
def convReactOne (gen : String → String → Option String) (question : String)
    (p : Persona) : SReaction :=
  match gen p.id question with
  | some response =>
    let ssc := determineSentiment response p.sentiment_bias
    ⟨p.id, p.name, p.avatar, response, ssc.1, ssc.2⟩
  | none =>
    ⟨p.id, p.name, p.avatar,
      "I\x27d like to think more about this question: " ++ question,
      "neutral", 0⟩

/-- Outcome of a conversations-blueprint handler: an error body with an HTTP
400 status, or a success payload. -/
inductive ConvResult where
  | badRequest (error : String)
  | ok (question : String) (reactions : List SReaction)
deriving DecidableEq, Repr

/-- api/conversations.py simple_interaction: strip the question, validate,
resolve persona ids through PersonaService.get_personas_by_ids (which
silently drops every id that does not resolve), reject only a completely
empty resolved set, and otherwise produce one reaction per resolved
persona. -/
def convSimpleInteraction (resolve : String → Option Persona)
    (gen : String → String → Option String) (q : String) (ps : List String) :
    ConvResult :=
  let question := stripPy q
  if question = "" then .badRequest "Question is required"
  else if ps = [] then .badRequest "At least one persona is required"
  else
    let personas := ps.filterMap resolve
    if personas = [] then .badRequest "No valid personas found"
    else .ok question (personas.map (convReactOne gen question))

/-! ## crew_manager.py -/

/-- A persona record loaded from the JSON files (the role used as display
name, and the avatar). -/
structure CMRec where
  role : String
  avatar : String
deriving DecidableEq, Repr

/-- Association-list lookup on the JSON persona store. -/
def alookup (d : List (String × CMRec)) (k : String) : Option CMRec :=
  (d.find? (fun kv => kv.1 == k)).map Prod.snd

/-- CrewManager.create_agent resolution: the given id, then its
underscore-to-hyphen form, then its hyphen-to-underscore form; none when all
three lookups miss. -/
def createAgent (pj : List (String × CMRec)) (pid : String) : Option CMRec :=
  match alookup pj pid with
  | some r => some r
  | none =>
    match alookup pj (replaceChar '_' '-' pid) with
    | some r => some r
    | none =>
      match alookup pj (replaceChar '-' '_' pid) with
      | some r => some r
      | none => none

/-- CrewManager._get_avatar_for_persona: the same triple lookup, with the
default avatar on a miss. -/
def avatarFor (pj : List (String × CMRec)) (pid : String) : String :=
  match createAgent pj pid with
  | some r => r.avatar
  | none => "👤"

/-- The persona display name used by run_simple_interaction: the JSON record
under the raw persona id when present, otherwise the agents_config role for
the underscore form, otherwise the literal default. -/
def cmPersonaName (pj : List (String × CMRec)) (cfg : String → Option String)
    (pid agent_name : String) : String :=
  match alookup pj pid with
  | some r => r.role
  | none => (cfg agent_name).getD "Unknown Role"

/-- True when run_simple_interaction will reach the generator call for this
persona id (create_agent resolves its underscore form). -/
def resolvesCM (pj : List (String × CMRec)) (pid : String) : Bool :=
  (createAgent pj (replaceChar '-' '_' pid)).isSome

/-- CrewManager.run_simple_interaction: per persona id, resolve the agent
(silently skipping on failure), call the generator (an Except, whose error
carries the exception text used as the fallback reaction), and score the
response with the keyword policy.  Returns the reactions and the ids for
which a generator call was made.  Task creation from the YAML config is
assumed to succeed (it fails only when the config file is absent). -/
def runSimpleInteraction (pj : List (String × CMRec)) (cfg : String → Option String)
    (gen : String → String → Except String String) (question : String) :
    List String → List SReaction × List String
  | [] => ([], [])
  | pid :: rest =>
    let agent_name := replaceChar '-' '_' pid
    match createAgent pj agent_name with
    | none => runSimpleInteraction pj cfg gen question rest
    | some _ =>
      let nm := cmPersonaName pj cfg pid agent_name
      let reaction :=
        match gen pid question with
        | .ok text =>
          let ssc := analyzeSentiment text
          SReaction.mk pid nm (avatarFor pj pid) text ssc.1 ssc.2
        | .error e => SReaction.mk pid nm (avatarFor pj pid) e "neutral" 0
      let pr := runSimpleInteraction pj cfg gen question rest
      (reaction :: pr.1, pid :: pr.2)

/-- Outcome of an app.py endpoint: an error body with HTTP 400, or a success
payload. -/
inductive ApiResult (α : Type) where
  | badRequest (error : String)
  | ok (payload : α)
deriving DecidableEq, Repr

/-- app.py simple_interaction: the up-front validation (Python truthiness:
empty question or empty persona list) returns 400 with the literal body
before any persona work; otherwise the crew pipeline runs.  The second
component records which persona ids reached a generator call. -/
def appSimpleInteraction (pj : List (String × CMRec)) (cfg : String → Option String)
    (gen : String → String → Except String String) (question : String)
    (selected : List String) : ApiResult (String × List SReaction) × List String :=
  if question = "" ∨ selected = [] then
    (.badRequest "Question and personas are required", [])
  else
    let pr := runSimpleInteraction pj cfg gen question selected
    (.ok (question, pr.1), pr.2)

/-! ## crew_manager.py run_focus_group_simulation, phase 2 -/

/-- The rolling context of a crew focus-group round: the last 6 transcript
entries, excluding the acting persona. -/
def cmRecentContext (dms : List Msg) (pid : String) : List Msg :=
  (lastN 6 dms).filter (fun m => m.persona_id != pid)

/-- The rendered crew focus-group context: name: content lines joined by
newlines, in transcript order. -/
def cmContextString (dms : List Msg) (pid : String) : String :=
  joinSep "\n" ((cmRecentContext dms pid).map (fun m => m.persona_name ++ ": " ++ m.content))

/-- One persona turn of a crew focus-group round: the generator receives the
persona id, the round number and the rendered recent context (the task
template also interpolates the fixed campaign text); on success the message
is scored with the keyword policy, on failure the exception is only logged
and no message is produced. -/
def cmProcess (gen : String → Nat → String → Option String) (dms : List Msg)
    (roundNum : Nat) (a : String × CMRec) : Option Msg :=
  match gen a.1 roundNum (cmContextString dms a.1) with
  | some response =>
    let ssc := analyzeSentiment response
    some ⟨a.1, a.2.role, a.2.avatar, response, ssc.1, ssc.2, roundNum⟩
  | none => none

/-- One crew focus-group round.  Messages are appended to
discussion_messages inside the per-persona loop; a failed call appends
nothing. -/
def cmRound (gen : String → Nat → String → Option String) (roundNum : Nat) :
    List (String × CMRec) → List Msg → List Msg
  | [], dms => dms
  | a :: rest, dms =>
    match cmProcess gen dms roundNum a with
    | some m => cmRound gen roundNum rest (dms ++ [m])
    | none => cmRound gen roundNum rest dms

/-- The crew focus-group round loop, rounds numbered from roundNum upward. -/
def cmPhase2Aux (gen : String → Nat → String → Option String)
    (agents : List (String × CMRec)) : Nat → Nat → List Msg → List Msg
  | 0, _, dms => dms
  | k + 1, roundNum, dms =>
    cmPhase2Aux gen agents k (roundNum + 1) (cmRound gen roundNum agents dms)

/-- Phase 2 of crew_manager.run_focus_group_simulation: rounds 1 to 3
(`for round_num in range(1, 4)`), over the resolved agents. -/
def cmDiscussion (gen : String → Nat → String → Option String)
    (agents : List (String × CMRec)) : List Msg :=
  cmPhase2Aux gen agents 3 1 []

/-! ## Theorems: sentiment and prompt-building policies -/

lemma mkRat_fifth : mkRat 1 5 = (1/5 : Rat) := by norm_num [mkRat]

lemma mkRat_threeTenths : mkRat 3 10 = (3/10 : Rat) := by norm_num [mkRat]

lemma mkRat_sevenTenths : mkRat 7 10 = (7/10 : Rat) := by norm_num [mkRat]

lemma mkRat_twoFifths : mkRat 2 5 = (2/5 : Rat) := by norm_num [mkRat]

lemma string_append_ne (a b t : String) (h : a.length ≠ b.length) :
    a ++ t ≠ b ++ t := by
  intro he
  apply h
  have h2 := congrArg String.length he
  simp only [String.length_append] at h2
  omega

lemma analyzeSentiment_pos (text : String)
    (h : keywordCount negative_words (lowerStr text) < keywordCount positive_words (lowerStr text)) :
    analyzeSentiment text = ("positive",
      min 5 ((keywordCount positive_words (lowerStr text) : Int) -
        (keywordCount negative_words (lowerStr text) : Int))) := by
  unfold analyzeSentiment
  rw [if_pos h]

lemma analyzeSentiment_neg (text : String)
    (h : keywordCount positive_words (lowerStr text) < keywordCount negative_words (lowerStr text)) :
    analyzeSentiment text = ("negative",
      max (-5) (-((keywordCount negative_words (lowerStr text) : Int) -
        (keywordCount positive_words (lowerStr text) : Int)))) := by
  unfold analyzeSentiment
  rw [if_neg (by omega), if_pos h]

lemma analyzeSentiment_neu (text : String)
    (h : keywordCount positive_words (lowerStr text) = keywordCount negative_words (lowerStr text)) :
    analyzeSentiment text = ("neutral", 0) := by
  unfold analyzeSentiment
  rw [if_neg (by omega), if_neg (by omega)]

/-- Claim C1: the keyword-count sentiment policy of
crew_manager._analyze_sentiment counts, case-insensitively, which words of
the fixed 15-word positive and negative lists occur in the response text;
the label is positive exactly when the positive count strictly exceeds the
negative count (score min 5 of the difference), negative exactly in the
mirrored case (score max -5 of minus the difference), and neutral with
score 0 exactly when the counts are equal.  The function takes no persona
input, so no sentiment bias is applied. -/
theorem analyzeSentiment_keyword_policy (text : String) :
    ((analyzeSentiment text).1 = "positive" ↔
      keywordCount negative_words (lowerStr text) < keywordCount positive_words (lowerStr text)) ∧
    ((analyzeSentiment text).1 = "negative" ↔
      keywordCount positive_words (lowerStr text) < keywordCount negative_words (lowerStr text)) ∧
    ((analyzeSentiment text).1 = "neutral" ↔
      keywordCount positive_words (lowerStr text) = keywordCount negative_words (lowerStr text)) ∧
    (analyzeSentiment text).2 =
      (if keywordCount negative_words (lowerStr text) < keywordCount positive_words (lowerStr text) then
        min 5 ((keywordCount positive_words (lowerStr text) : Int) -
          (keywordCount negative_words (lowerStr text) : Int))
      else if keywordCount positive_words (lowerStr text) < keywordCount negative_words (lowerStr text) then
        max (-5) (-((keywordCount negative_words (lowerStr text) : Int) -
          (keywordCount positive_words (lowerStr text) : Int)))
      else 0) := by
  rcases Nat.lt_trichotomy (keywordCount negative_words (lowerStr text))
    (keywordCount positive_words (lowerStr text)) with h | h | h
  · rw [analyzeSentiment_pos text h, if_pos h]
    refine ⟨by simp [h], by simp; omega, by simp; omega, rfl⟩
  · rw [analyzeSentiment_neu text h.symm, if_neg (by omega), if_neg (by omega)]
    refine ⟨by simp; omega, by simp; omega, by simp [h], rfl⟩
  · rw [analyzeSentiment_neg text h, if_neg (by omega), if_pos h]
    refine ⟨by simp; omega, by simp [h], by simp; omega, rfl⟩

/-- Claim C3, amended: the bias-driven per-turn sentiment of the
conversations handlers follows the 0.2 thresholds only when the generated
text is non-empty (the Python truthiness guard on the response); an empty
text yields neutral, 0 regardless of bias. -/
theorem bias_policy_nonempty_response (response : String) (bias : Rat)
    (h : response ≠ "") :
    (determineSentiment response bias = ("positive", 1) ↔ 1/5 < bias) ∧
    (determineSentiment response bias = ("negative", -1) ↔ bias < -(1/5)) ∧
    (determineSentiment response bias = ("neutral", 0) ↔
      -(1/5) ≤ bias ∧ bias ≤ 1/5) := by
  unfold determineSentiment
  rw [if_neg h]
  unfold pureBiasSentiment
  rw [mkRat_fifth]
  split_ifs with h1 h2
  · exact ⟨⟨fun _ => h1, fun _ => rfl⟩,
      ⟨fun hx => absurd hx (by decide), fun hx => absurd h1 (by linarith)⟩,
      ⟨fun hx => absurd hx (by decide), fun hx => absurd h1 (by linarith [hx.2])⟩⟩
  · exact ⟨⟨fun hx => absurd hx (by decide), fun hx => absurd hx h1⟩,
      ⟨fun _ => h2, fun _ => rfl⟩,
      ⟨fun hx => absurd hx (by decide), fun hx => absurd h2 (by linarith [hx.1])⟩⟩
  · exact ⟨⟨fun hx => absurd hx (by decide), fun hx => absurd hx h1⟩,
      ⟨fun hx => absurd hx (by decide), fun hx => absurd hx h2⟩,
      ⟨fun _ => ⟨by linarith [not_lt.mp h2], not_lt.mp h1⟩, fun _ => rfl⟩⟩

/-- Witness for bias_policy_nonempty_response at a concrete non-empty
response and bias one half. -/
theorem bias_policy_nonempty_response_witness :
    ("ok" : String) ≠ "" ∧ determineSentiment "ok" (1/2) = ("positive", 1) :=
  ⟨by decide, (bias_policy_nonempty_response "ok" (1/2) (by decide)).1.mpr (by norm_num)⟩

/-- Counterexample to claim C3 as stated: with bias one half, above the 0.2
threshold, but an empty generated text, the per-turn sentiment block yields
neutral, 0 and not positive, 1 — the content is not ignored. -/
theorem bias_policy_empty_response_cex :
    ((1 : Rat)/5 < 1/2) ∧ determineSentiment "" (1/2) = ("neutral", 0) ∧
    determineSentiment "" (1/2) ≠ ("positive", 1) := by
  refine ⟨by norm_num, rfl, ?_⟩
  rw [show determineSentiment "" (1/2) = ("neutral", 0) from rfl]
  decide

/-- Claim C10: in the bias-driven labeling of the conversations handlers, an
empty generated text always yields sentiment neutral with score 0, and the
bias thresholds are consulted exactly when the text is non-empty (the result
is then the pure threshold chain). -/
theorem empty_response_neutral_guard (bias : Rat) :
    determineSentiment "" bias = ("neutral", 0) ∧
    ∀ response : String, response ≠ "" →
      determineSentiment response bias = pureBiasSentiment bias := by
  refine ⟨rfl, fun response h => ?_⟩
  unfold determineSentiment
  rw [if_neg h]

/-- Witness for empty_response_neutral_guard at bias one half and a
non-empty response. -/
theorem empty_response_neutral_guard_witness :
    determineSentiment "" (1/2) = ("neutral", 0) ∧
    ("x" : String) ≠ "" ∧
    determineSentiment "x" (1/2) = pureBiasSentiment (1/2) :=
  ⟨(empty_response_neutral_guard (1/2)).1, by decide,
    (empty_response_neutral_guard (1/2)).2 "x" (by decide)⟩

/-- Claim C4: the three-tier trait descriptor of
PersonaAgent._format_personality_traits renders very for values above 0.7,
moderately exactly on the interval from 0.4 exclusive to 0.7 inclusive, not
very exactly below 0.3, and no descriptor exactly on the closed interval
from 0.3 to 0.4. -/
theorem personality_trait_tiers (t : String) (v : Rat) :
    (traitDescriptor t v = some ("very " ++ t) ↔ 7/10 < v) ∧
    (traitDescriptor t v = some ("moderately " ++ t) ↔ 2/5 < v ∧ v ≤ 7/10) ∧
    (traitDescriptor t v = some ("not very " ++ t) ↔ v < 3/10) ∧
    (traitDescriptor t v = none ↔ 3/10 ≤ v ∧ v ≤ 2/5) := by
  have hvm : ("very " : String) ++ t ≠ "moderately " ++ t :=
    string_append_ne _ _ _ (by decide)
  have hvn : ("very " : String) ++ t ≠ "not very " ++ t :=
    string_append_ne _ _ _ (by decide)
  have hmn : ("moderately " : String) ++ t ≠ "not very " ++ t :=
    string_append_ne _ _ _ (by decide)
  unfold traitDescriptor
  rw [mkRat_sevenTenths, mkRat_twoFifths, mkRat_threeTenths]
  split_ifs with h1 h2 h3
  · refine ⟨⟨fun _ => h1, fun _ => rfl⟩,
      ⟨fun hx => absurd (Option.some.inj hx) hvm, fun hx => absurd hx.2 (by linarith)⟩,
      ⟨fun hx => absurd (Option.some.inj hx) hvn, fun hx => absurd hx (by linarith)⟩, ?_⟩
    simp only [reduceCtorEq, false_iff]
    rintro ⟨-, hle⟩
    linarith
  · refine ⟨⟨fun hx => absurd (Option.some.inj hx) (Ne.symm hvm), fun hx => absurd hx h1⟩,
      ⟨fun _ => ⟨h2, not_lt.mp h1⟩, fun _ => rfl⟩,
      ⟨fun hx => absurd (Option.some.inj hx) hmn, fun hx => absurd hx (by linarith)⟩, ?_⟩
    simp only [reduceCtorEq, false_iff]
    rintro ⟨-, hle⟩
    linarith
  · refine ⟨⟨fun hx => absurd (Option.some.inj hx) (Ne.symm hvn), fun hx => absurd hx h1⟩,
      ⟨fun hx => absurd (Option.some.inj hx) (Ne.symm hmn), fun hx => absurd hx.1 h2⟩,
      ⟨fun _ => h3, fun _ => rfl⟩, ?_⟩
    simp only [reduceCtorEq, false_iff]
    rintro ⟨hge, -⟩
    linarith
  · refine ⟨?_, ?_, ?_, ⟨fun _ => ⟨not_lt.mp h3, not_lt.mp h2⟩, fun _ => rfl⟩⟩
    · simp only [reduceCtorEq, false_iff]
      exact h1
    · simp only [reduceCtorEq, false_iff]
      rintro ⟨hgt, -⟩
      exact h2 hgt
    · simp only [reduceCtorEq, false_iff]
      exact h3

/-- Claim C5: the prompt builder appends a behavioral-context sentence for
sentiment bias exactly when the bias lies outside the closed interval from
-0.3 to 0.3, for engagement exactly when the level lies outside the closed
interval from 0.3 to 0.7, and for controversy tolerance likewise; inside
the dead zones no sentence is produced. -/
theorem behavioral_context_thresholds (b e c : Rat) :
    ((biasSentence b).isSome = true ↔ (3/10 < b ∨ b < -(3/10))) ∧
    ((engagementSentence e).isSome = true ↔ (7/10 < e ∨ e < 3/10)) ∧
    ((controversySentence c).isSome = true ↔ (7/10 < c ∨ c < 3/10)) := by
  refine ⟨?_, ?_, ?_⟩
  · unfold biasSentence
    rw [mkRat_threeTenths]
    split_ifs with h1 h2
    · simpa using Or.inl h1
    · simpa using Or.inr h2
    · simp only [Option.isSome_none, Bool.false_eq_true, false_iff]
      rintro (h | h)
      exacts [h1 h, h2 h]
  · unfold engagementSentence
    rw [mkRat_sevenTenths, mkRat_threeTenths]
    split_ifs with h1 h2
    · simpa using Or.inl h1
    · simpa using Or.inr h2
    · simp only [Option.isSome_none, Bool.false_eq_true, false_iff]
      rintro (h | h)
      exacts [h1 h, h2 h]
  · unfold controversySentence
    rw [mkRat_sevenTenths, mkRat_threeTenths]
    split_ifs with h1 h2
    · simpa using Or.inl h1
    · simpa using Or.inr h2
    · simp only [Option.isSome_none, Bool.false_eq_true, false_iff]
      rintro (h | h)
      exacts [h1 h, h2 h]

/-! ## Theorems: orchestration, error handling, validation -/

/-- Persona p1 of the claim C2 focus-group scenario (positive bias). -/
def c2p1 : Persona := ⟨"p1", "Priya", "A", mkRat 1 2, mkRat 1 2, mkRat 1 2⟩

/-- Persona p2 of the claim C2 focus-group scenario (neutral bias). -/
def c2p2 : Persona := ⟨"p2", "Quinn", "B", 0, mkRat 1 2, mkRat 1 2⟩

/-- Persona p3 of the claim C2 focus-group scenario (negative bias). -/
def c2p3 : Persona := ⟨"p3", "Rafael", "C", -(mkRat 1 2), mkRat 1 2, mkRat 1 2⟩

/-- The claim C2 generator stub for the conversations focus-group handler:
it fails exactly for persona p2 on the round-2 prompt (recognized by the
round header the handler embeds in the context) and answers ok otherwise. -/
def c2gen : String → String → Option String :=
  fun pid ctx => if pid == "p2" && strContains ctx "Round 2:" then none else some "ok"

/-- The claim C2 resolved agents for crew_manager.run_focus_group_simulation. -/
def c2agents : List (String × CMRec) :=
  [("p1", ⟨"Analyst", "A"⟩), ("p2", ⟨"Designer", "B"⟩), ("p3", ⟨"Engineer", "C"⟩)]

/-- The claim C2 generator stub for the crew loop: it fails exactly for
persona p2 in round 2. -/
def c2cmGen : String → Nat → String → Option String :=
  fun pid r _ => if pid == "p2" && r == 2 then none else some "ok"


lemma fgRoundAux_msgs (gen : String → String → Option String) (camp : String)
    (goals : List String) (dms : List Msg) (roundNum : Nat) :
    ∀ (ps : List Persona) (acc : List Msg × List (String × Int)),
      (fgRoundAux gen camp goals dms roundNum ps acc).1 =
        acc.1 ++ ps.map (fgProcessPersona gen camp goals dms roundNum)
  | [], acc => by simp [fgRoundAux]
  | p :: rest, acc => by
    rw [fgRoundAux, fgRoundAux_msgs gen camp goals dms roundNum rest]
    simp

lemma fgRound_msgs (gen : String → String → Option String) (camp : String)
    (goals : List String) (dms : List Msg) (roundNum : Nat) (ps : List Persona) :
    (fgRound gen camp goals dms roundNum ps).1 =
      ps.map (fgProcessPersona gen camp goals dms roundNum) := by
  rw [fgRound, fgRoundAux_msgs]
  simp

lemma fgPhase2Aux_msgs_length (gen : String → String → Option String) (camp : String)
    (goals : List String) (ps : List Persona) :
    ∀ (k roundNum : Nat) (acc : List Msg × List SentInterval),
      (fgPhase2Aux gen camp goals ps k roundNum acc).1.length =
        acc.1.length + k * ps.length
  | 0, roundNum, acc => by simp [fgPhase2Aux]
  | k + 1, roundNum, acc => by
    rw [fgPhase2Aux]
    rw [fgPhase2Aux_msgs_length gen camp goals ps k]
    simp [fgRound_msgs, Nat.succ_mul]
    omega

theorem focus_group_fallback_no_holes :
    (∀ (gen : String → String → Option String) (camp : String) (goals : List String)
      (personas : List Persona) (n : Nat),
        (fgPhase2 gen camp goals personas n).1.length = n * personas.length) ∧
    (fgSimulation c2gen "Launch" [] [c2p1, c2p2, c2p3] 3).discussion_messages.length = 9 ∧
    (fgSimulation c2gen "Launch" [] [c2p1, c2p2, c2p3] 3).discussion_messages[4]? =
      some ⟨"p2", "Quinn", "B",
        "I\x27m still processing the information from this round.", "neutral", 0, 2⟩ := by
  refine ⟨fun gen camp goals personas n => ?_, by decide, by decide⟩
  rw [fgPhase2, fgPhase2Aux_msgs_length]
  simp

theorem crew_focus_group_drops_failed_call :
    (cmDiscussion c2cmGen c2agents).length = 8 ∧
    (cmDiscussion c2cmGen c2agents).length ≠ 9 ∧
    (cmDiscussion c2cmGen c2agents).filter
      (fun m => m.persona_id == "p2" && m.round == 2) = [] := by
  refine ⟨by decide, by decide, by decide⟩

/-- Claim C6, amended, crew side and window sizes: the crew focus-group
round context takes at most the last 6 transcript entries, preserves
chronological order (it is a sublist of the transcript), and excludes every
entry of the acting persona; the simple group-discussion window is the last
3 entries in order, with no such exclusion. -/
theorem discussion_context_window (dms : List Msg) (pid : String) :
    (cmRecentContext dms pid).length ≤ 6 ∧
    List.Sublist (cmRecentContext dms pid) dms ∧
    (∀ m, m ∈ cmRecentContext dms pid → m.persona_id ≠ pid) ∧
    (gdWindow dms).length ≤ 3 ∧
    List.Sublist (gdWindow dms) dms := by
  refine ⟨?_, ?_, ?_, ?_, ?_⟩
  · calc (cmRecentContext dms pid).length
        ≤ (lastN 6 dms).length := List.length_filter_le _ _
      _ ≤ 6 := by simp only [lastN, List.length_drop]; omega
  · exact (List.filter_sublist _).trans (List.drop_sublist _ _)
  · intro m hm
    have h := List.of_mem_filter hm
    simpa using h
  · simp only [gdWindow, lastN, List.length_drop]; omega
  · exact List.drop_sublist _ _

/-- First transcript entry for the discussion_context_window witness. -/
def c6m1 : Msg := ⟨"p1", "Alice", "A", "first", "neutral", 0, 1⟩

/-- Second transcript entry for the discussion_context_window witness. -/
def c6m2 : Msg := ⟨"p2", "Bob", "B", "second", "neutral", 0, 1⟩

/-- Witness for discussion_context_window: with a two-entry transcript the
entry of the other persona is in the window of acting persona p1, and its
persona id differs from p1. -/
theorem discussion_context_window_witness :
    c6m2 ∈ cmRecentContext [c6m1, c6m2] "p1" ∧ c6m2.persona_id ≠ "p1" :=
  ⟨by decide, (discussion_context_window [c6m1, c6m2] "p1").2.2.1 c6m2 (by decide)⟩

/-- The single persona of the group-discussion counterexample run. -/
def c6p : Persona := ⟨"p1", "Alice", "A", 0, mkRat 1 2, mkRat 1 2⟩

/-- An echo generator: it answers every prompt with the prompt itself, so
the produced message content records exactly what the acting persona was
shown. -/
def c6gen : String → String → Option String := fun _ ctx => some ctx

/-- Counterexample to claim C6 as stated: in the group-discussion handler a
run with the single persona p1 and an echo generator shows that the round-2
prompt built for p1 contains the rendered line of p1 round-1 message — the
handler windows the last 3 entries without excluding the acting persona. -/
theorem group_discussion_includes_own_message :
    (gdDiscussion c6gen "Q" [c6p]).length = 2 ∧
    (gdDiscussion c6gen "Q" [c6p])[0]? =
      some ⟨"p1", "Alice", "A", "Question: Q\n\n", "neutral", 0, 1⟩ ∧
    (gdDiscussion c6gen "Q" [c6p])[1]? =
      some ⟨"p1", "Alice", "A",
        "Question: Q\n\nPrevious discussion:\nAlice: Question: Q\n\n\n", "neutral", 0, 2⟩ ∧
    strContains "Question: Q\n\nPrevious discussion:\nAlice: Question: Q\n\n\n"
      ("Alice: " ++ "Question: Q\n\n") = true := by
  refine ⟨by decide, by decide, by decide, by decide⟩

/-- Claim C8, amended: the app.py simple-interaction handler returns the
literal 400 body exactly when the question is empty or the personas list is
empty, and in that case no persona call occurs. -/
theorem simple_interaction_validation (pj : List (String × CMRec))
    (cfg : String → Option String) (gen : String → String → Except String String)
    (q : String) (ps : List String) :
    ((appSimpleInteraction pj cfg gen q ps).1 =
        ApiResult.badRequest "Question and personas are required" ↔ (q = "" ∨ ps = [])) ∧
    ((q = "" ∨ ps = []) → (appSimpleInteraction pj cfg gen q ps).2 = []) := by
  by_cases h : q = "" ∨ ps = []
  · rw [appSimpleInteraction, if_pos h]
    exact ⟨⟨fun _ => h, fun _ => rfl⟩, fun _ => rfl⟩
  · rw [appSimpleInteraction, if_neg h]
    exact ⟨⟨fun hx => ApiResult.noConfusion hx, fun hx => absurd hx h⟩,
      fun hx => absurd hx h⟩

/-- Witness for simple_interaction_validation at an empty question. -/
theorem simple_interaction_validation_witness :
    (("" : String) = "" ∨ (["p1"] : List String) = []) ∧
    (appSimpleInteraction [] (fun _ => none) (fun _ _ => Except.ok "fine") "" ["p1"]).2 = [] :=
  ⟨Or.inl rfl,
    (simple_interaction_validation [] (fun _ => none) (fun _ _ => Except.ok "fine")
      "" ["p1"]).2 (Or.inl rfl)⟩

/-- Counterexample to claim C8 as stated: a request with a non-empty
question and one unresolvable persona id makes no persona call yet does not
return the 400 body — validation is not the only no-call case. -/
theorem simple_interaction_no_call_without_400 :
    (appSimpleInteraction [] (fun _ => none) (fun _ _ => Except.ok "fine") "hi" ["ghost"]).2 = [] ∧
    (appSimpleInteraction [] (fun _ => none) (fun _ _ => Except.ok "fine") "hi" ["ghost"]).1 =
      ApiResult.ok ("hi", []) ∧
    (appSimpleInteraction [] (fun _ => none) (fun _ _ => Except.ok "fine") "hi" ["ghost"]).1 ≠
      ApiResult.badRequest "Question and personas are required" := by
  refine ⟨by decide, by decide, by decide⟩

lemma runSimpleInteraction_length (pj : List (String × CMRec))
    (cfg : String → Option String) (gen : String → String → Except String String)
    (q : String) :
    ∀ ps : List String,
      (runSimpleInteraction pj cfg gen q ps).1.length = (ps.filter (resolvesCM pj)).length
  | [] => rfl
  | pid :: rest => by
    rcases h : createAgent pj (replaceChar '-' '_' pid) with _ | r
    · simp only [runSimpleInteraction, h, List.filter_cons, resolvesCM,
        Option.isSome_none, Bool.false_eq_true, if_false]
      exact runSimpleInteraction_length pj cfg gen q rest
    · simp only [runSimpleInteraction, h, List.filter_cons, resolvesCM,
        Option.isSome_some, if_true, List.length_cons]
      rw [runSimpleInteraction_length pj cfg gen q rest]

/-- Claim C9: unresolved persona ids are silently skipped in both pipelines:
the crew pipeline returns exactly one reaction per resolvable id (no error
at all, even when none resolve), and the conversations handler proceeds
with the resolved subset, one reaction per resolved persona, rejecting the
request only when the resolved set is completely empty. -/
theorem persona_resolution_gap (pj : List (String × CMRec))
    (cfg : String → Option String) (genCM : String → String → Except String String)
    (resolve : String → Option Persona) (genConv : String → String → Option String)
    (q : String) (ps : List String) (hq : stripPy q ≠ "") (hps : ps ≠ []) :
    (runSimpleInteraction pj cfg genCM q ps).1.length =
      (ps.filter (resolvesCM pj)).length ∧
    (appSimpleInteraction pj cfg genCM q ps).1 =
      ApiResult.ok (q, (runSimpleInteraction pj cfg genCM q ps).1) ∧
    (ps.filter (resolvesCM pj)).length ≤ ps.length ∧
    (ps.filterMap resolve = [] →
      convSimpleInteraction resolve genConv q ps =
        ConvResult.badRequest "No valid personas found") ∧
    (ps.filterMap resolve ≠ [] →
      convSimpleInteraction resolve genConv q ps =
        ConvResult.ok (stripPy q)
          ((ps.filterMap resolve).map (convReactOne genConv (stripPy q))) ∧
      ((ps.filterMap resolve).map (convReactOne genConv (stripPy q))).length =
        (ps.filterMap resolve).length) := by
  have hq0 : q ≠ "" := by
    intro he
    exact hq (by rw [he]; rfl)
  refine ⟨runSimpleInteraction_length pj cfg genCM q ps, ?_, List.length_filter_le _ _, ?_, ?_⟩
  · rw [appSimpleInteraction, if_neg (by rintro (h | h); exacts [hq0 h, hps h])]
  · intro hres
    rw [convSimpleInteraction]
    rw [if_neg hq, if_neg hps, if_pos hres]
  · intro hres
    rw [convSimpleInteraction]
    rw [if_neg hq, if_neg hps, if_neg hres]
    exact ⟨rfl, by simp⟩

/-- The JSON persona store of the persona_resolution_gap witness. -/
def c9pj : List (String × CMRec) := [("tech_enthusiast", ⟨"Tech Enthusiast", "R"⟩)]

/-- The config lookup of the persona_resolution_gap witness. -/
def c9cfg : String → Option String := fun _ => none

/-- The crew generator of the persona_resolution_gap witness. -/
def c9gen : String → String → Except String String := fun _ _ => Except.ok "great"

/-- The resolver of the persona_resolution_gap witness (resolves nothing). -/
def c9resolve : String → Option Persona := fun _ => none

/-- The conversations generator of the persona_resolution_gap witness. -/
def c9cgen : String → String → Option String := fun _ _ => some "fine"

/-- Witness for persona_resolution_gap: of the two requested ids only
tech-enthusiast resolves, and exactly one reaction comes back. -/
theorem persona_resolution_gap_witness :
    stripPy "Hi" ≠ "" ∧ (["tech-enthusiast", "ghost"] : List String) ≠ [] ∧
    (runSimpleInteraction c9pj c9cfg c9gen "Hi" ["tech-enthusiast", "ghost"]).1.length =
      ((["tech-enthusiast", "ghost"] : List String).filter (resolvesCM c9pj)).length ∧
    ((["tech-enthusiast", "ghost"] : List String).filter (resolvesCM c9pj)).length = 1 := by
  refine ⟨by decide, by decide, ?_, by decide⟩
  exact (persona_resolution_gap c9pj c9cfg c9gen c9resolve c9cgen "Hi"
    ["tech-enthusiast", "ghost"] (by decide) (by decide)).1

/-! ## Theorems: sentiment intervals and shift -/

lemma fgProcessPersona_round (gen : String → String → Option String) (camp : String)
    (goals : List String) (dms : List Msg) (roundNum : Nat) (p : Persona) :
    (fgProcessPersona gen camp goals dms roundNum p).round = roundNum + 1 := by
  unfold fgProcessPersona
  cases gen p.id (fgBuildContext camp goals dms roundNum) <;> rfl

lemma fgProcessPersona_pid (gen : String → String → Option String) (camp : String)
    (goals : List String) (dms : List Msg) (roundNum : Nat) (p : Persona) :
    (fgProcessPersona gen camp goals dms roundNum p).persona_id = p.id := by
  unfold fgProcessPersona
  cases gen p.id (fgBuildContext camp goals dms roundNum) <;> rfl

lemma hasKey_append (a b : List (String × Int)) (k : String) :
    hasKey (a ++ b) k = (hasKey a k || hasKey b k) := by
  simp [hasKey, List.any_append]

lemma fgRoundAux_dict (gen : String → String → Option String) (camp : String)
    (goals : List String) (dms : List Msg) (roundNum : Nat) :
    ∀ (ps : List Persona) (acc : List Msg × List (String × Int)),
      (∀ p ∈ ps, hasKey acc.2 p.id = false) →
      (ps.map Persona.id).Nodup →
      (fgRoundAux gen camp goals dms roundNum ps acc).2 =
        acc.2 ++ ps.map (fun p => (p.id,
          (fgProcessPersona gen camp goals dms roundNum p).sentiment_score))
  | [], acc, _, _ => by simp [fgRoundAux]
  | p :: rest, acc, hfresh, hnd => by
    rw [fgRoundAux]
    have hk : hasKey acc.2 p.id = false := hfresh p (List.mem_cons_self p rest)
    have hnd2 : p.id ∉ rest.map Persona.id ∧ (rest.map Persona.id).Nodup := by
      rw [List.map_cons] at hnd
      exact List.nodup_cons.mp hnd
    have hins : dictInsert acc.2 p.id
        (fgProcessPersona gen camp goals dms roundNum p).sentiment_score =
        acc.2 ++ [(p.id, (fgProcessPersona gen camp goals dms roundNum p).sentiment_score)] := by
      rw [dictInsert, if_neg (by simp [hk])]
    rw [fgRoundAux_dict gen camp goals dms roundNum rest _ ?_ ?_]
    · rw [hins]
      simp
    · intro q hq
      rw [hins, hasKey_append]
      have h1 : hasKey acc.2 q.id = false := hfresh q (List.mem_cons_of_mem p hq)
      have h2 : q.id ≠ p.id := by
        intro he
        exact hnd2.1 (he ▸ List.mem_map_of_mem Persona.id hq)
      have h3 : hasKey [(p.id,
          (fgProcessPersona gen camp goals dms roundNum p).sentiment_score)] q.id = false := by
        simp [hasKey]
        exact Ne.symm h2
      rw [h1, h3]
      rfl
    · exact hnd2.2

lemma fgRound_dict (gen : String → String → Option String) (camp : String)
    (goals : List String) (dms : List Msg) (roundNum : Nat) (ps : List Persona)
    (hnd : (ps.map Persona.id).Nodup) :
    (fgRound gen camp goals dms roundNum ps).2 =
      ps.map (fun p => (p.id,
        (fgProcessPersona gen camp goals dms roundNum p).sentiment_score)) := by
  rw [fgRound, fgRoundAux_dict gen camp goals dms roundNum ps ([], []) (by simp [hasKey]) hnd]
  simp

lemma roundOverall_meanScores (gen : String → String → Option String) (camp : String)
    (goals : List String) (dms : List Msg) (roundNum : Nat) (ps : List Persona)
    (hnd : (ps.map Persona.id).Nodup) :
    roundOverall (fgRound gen camp goals dms roundNum ps).2 =
      meanScores (fgRound gen camp goals dms roundNum ps).1 := by
  rw [fgRound_dict gen camp goals dms roundNum ps hnd, fgRound_msgs]
  unfold roundOverall meanScores
  have hmap : (ps.map (fun p => (p.id,
        (fgProcessPersona gen camp goals dms roundNum p).sentiment_score))).map Prod.snd =
      (ps.map (fgProcessPersona gen camp goals dms roundNum)).map Msg.sentiment_score := by
    simp only [List.map_map]
    rfl
  have hlen : (ps.map (fun p => (p.id,
        (fgProcessPersona gen camp goals dms roundNum p).sentiment_score))).length =
      (ps.map (fgProcessPersona gen camp goals dms roundNum)).length := by
    simp
  have hemp : (ps.map (fun p => (p.id,
        (fgProcessPersona gen camp goals dms roundNum p).sentiment_score))).isEmpty =
      (ps.map (fgProcessPersona gen camp goals dms roundNum)).isEmpty := by
    cases ps <;> rfl
  rw [hmap, hlen, hemp]

lemma fgRound_round_eq (gen : String → String → Option String) (camp : String)
    (goals : List String) (dms : List Msg) (roundNum : Nat) (ps : List Persona) :
    ∀ m ∈ (fgRound gen camp goals dms roundNum ps).1, m.round = roundNum + 1 := by
  intro m hm
  rw [fgRound_msgs] at hm
  rcases List.mem_map.mp hm with ⟨p, -, rfl⟩
  exact fgProcessPersona_round gen camp goals dms roundNum p

lemma fgPhase2Aux_spec (gen : String → String → Option String) (camp : String)
    (goals : List String) (ps : List Persona) (hnd : (ps.map Persona.id).Nodup) :
    ∀ (k roundNum : Nat) (ms : List Msg) (ivs : List SentInterval),
      (∀ m ∈ ms, m.round ≤ roundNum) →
      (∀ m ∈ (fgPhase2Aux gen camp goals ps k roundNum (ms, ivs)).1,
        m.round ≤ roundNum + k) ∧
      (∀ j, j ≤ roundNum →
        (fgPhase2Aux gen camp goals ps k roundNum (ms, ivs)).1.filter
          (fun m => m.round == j) = ms.filter (fun m => m.round == j)) ∧
      (∀ iv ∈ (fgPhase2Aux gen camp goals ps k roundNum (ms, ivs)).2, iv ∈ ivs ∨
        (roundNum < iv.round ∧ iv.overall_sentiment =
          meanScores ((fgPhase2Aux gen camp goals ps k roundNum (ms, ivs)).1.filter
            (fun m => m.round == iv.round)))) ∧
      (fgPhase2Aux gen camp goals ps k roundNum (ms, ivs)).2.length = ivs.length + k
  | 0, roundNum, ms, ivs, hms =>
    ⟨fun m hm => hms m hm, fun j hj => rfl, fun iv hiv => Or.inl hiv, rfl⟩
  | k + 1, roundNum, ms, ivs, hms => by
    have hblock := fgRound_round_eq gen camp goals ms roundNum ps
    have hms2 : ∀ m ∈ ms ++ (fgRound gen camp goals ms roundNum ps).1,
        m.round ≤ roundNum + 1 := by
      intro m hm
      rcases List.mem_append.mp hm with h | h
      · exact (hms m h).trans (Nat.le_succ _)
      · exact (hblock m h).le
    have IH := fgPhase2Aux_spec gen camp goals ps hnd k (roundNum + 1)
      (ms ++ (fgRound gen camp goals ms roundNum ps).1)
      (ivs ++ [⟨roundNum + 1, roundOverall (fgRound gen camp goals ms roundNum ps).2,
        (fgRound gen camp goals ms roundNum ps).2⟩]) hms2
    have heq : fgPhase2Aux gen camp goals ps (k + 1) roundNum (ms, ivs) =
        fgPhase2Aux gen camp goals ps k (roundNum + 1)
          (ms ++ (fgRound gen camp goals ms roundNum ps).1,
           ivs ++ [⟨roundNum + 1, roundOverall (fgRound gen camp goals ms roundNum ps).2,
             (fgRound gen camp goals ms roundNum ps).2⟩]) := rfl
    rw [heq]
    refine ⟨?_, ?_, ?_, ?_⟩
    · intro m hm
      have := IH.1 m hm
      omega
    · intro j hj
      rw [IH.2.1 j (by omega), List.filter_append]
      have hnilb : (fgRound gen camp goals ms roundNum ps).1.filter
          (fun m => m.round == j) = [] := by
        rw [List.filter_eq_nil_iff]
        intro m hm
        simp only [beq_iff_eq, hblock m hm]
        omega
      rw [hnilb, List.append_nil]
    · intro iv hiv
      rcases IH.2.2.1 iv hiv with hin | ⟨hlt, hovr⟩
      · rcases List.mem_append.mp hin with h | h
        · exact Or.inl h
        · have hiv0 : iv = ⟨roundNum + 1,
              roundOverall (fgRound gen camp goals ms roundNum ps).2,
              (fgRound gen camp goals ms roundNum ps).2⟩ := by simpa using h
          right
          rw [hiv0]
          refine ⟨Nat.lt_succ_self roundNum, ?_⟩
          rw [IH.2.1 (roundNum + 1) (Nat.le_refl _), List.filter_append]
          have hfm : ms.filter (fun m => m.round == roundNum + 1) = [] := by
            rw [List.filter_eq_nil_iff]
            intro m hm
            simp only [beq_iff_eq]
            have := hms m hm
            omega
          have hfb : (fgRound gen camp goals ms roundNum ps).1.filter
              (fun m => m.round == roundNum + 1) =
              (fgRound gen camp goals ms roundNum ps).1 := by
            rw [List.filter_eq_self]
            intro m hm
            simp [hblock m hm]
          rw [hfm, hfb, List.nil_append]
          exact roundOverall_meanScores gen camp goals ms roundNum ps hnd
      · exact Or.inr ⟨by omega, hovr⟩
    · rw [IH.2.2.2]
      simp only [List.length_append, List.length_singleton]
      omega

/-- Claim C7: every recorded sentiment interval of the focus-group handler
has overall_sentiment equal to the arithmetic mean of the per-persona
sentiment scores of its round (0 when the round produced no messages, which
meanScores encodes); one interval is recorded per round; sentiment_shift is
the final interval overall sentiment minus the initial-reaction mean, each
empty case guarded to 0; and a session with one round and no initial
reactions resolves the shift to 0 with no division error. -/
theorem sentiment_intervals_and_shift (gen : String → String → Option String)
    (camp : String) (goals : List String) (personas : List Persona) (n : Nat)
    (hnd : (personas.map Persona.id).Nodup) :
    (fgSimulation gen camp goals personas n).sentiment_intervals.length = n ∧
    (∀ iv ∈ (fgSimulation gen camp goals personas n).sentiment_intervals,
      iv.overall_sentiment = meanScores
        ((fgSimulation gen camp goals personas n).discussion_messages.filter
          (fun m => m.round == iv.round))) ∧
    ((fgSimulation gen camp goals personas n).final_summary.sentiment_shift =
      (match (fgSimulation gen camp goals personas n).sentiment_intervals.getLast? with
        | some iv => iv.overall_sentiment
        | none => 0) -
      meanReactionScores (fgSimulation gen camp goals personas n).initial_reactions) ∧
    (personas = [] → n = 1 →
      (fgSimulation gen camp goals personas n).final_summary.sentiment_shift = 0 ∧
      (fgSimulation gen camp goals personas n).initial_reactions = []) := by
  have hproj1 : (fgSimulation gen camp goals personas n).sentiment_intervals =
      (fgPhase2 gen camp goals personas n).2 := rfl
  have hproj2 : (fgSimulation gen camp goals personas n).discussion_messages =
      (fgPhase2 gen camp goals personas n).1 := rfl
  have hspec := fgPhase2Aux_spec gen camp goals personas hnd n 0 [] []
    (by intro m hm; cases hm)
  refine ⟨?_, ?_, rfl, ?_⟩
  · rw [hproj1, fgPhase2, hspec.2.2.2]
    simp
  · intro iv hiv
    rw [hproj1, fgPhase2] at hiv
    rcases hspec.2.2.1 iv hiv with h | ⟨-, h⟩
    · cases h
    · rw [hproj2, fgPhase2]
      exact h
  · intro h1 h2
    subst h1
    subst h2
    constructor
    · show (0 : Rat) - 0 = 0
      norm_num
    · rfl

/-- Witness for sentiment_intervals_and_shift: the one-round session with no
personas (hence no initial reactions) has sentiment_shift 0. -/
theorem sentiment_intervals_and_shift_witness :
    (List.map Persona.id ([] : List Persona)).Nodup ∧
    (fgSimulation (fun _ _ => some "ok") "C" [] [] 1).final_summary.sentiment_shift = 0 ∧
    (fgSimulation (fun _ _ => some "ok") "C" [] [] 1).initial_reactions = [] := by
  have h := sentiment_intervals_and_shift (fun _ _ => some "ok") "C" [] [] 1 (by simp)
  exact ⟨by simp, (h.2.2.2 rfl rfl).1, (h.2.2.2 rfl rfl).2⟩
